import Mathlib

/-!
Verification of the MinIO/Fastify object-storage façade.

The repository has two variants:
* `src/index.js` — the streaming-proxy variant: the server proxies uploads
  (`POST /upload`), downloads (`GET /file/:filename`), listing (`GET /files`),
  deletion (`DELETE /file/:filename`) and issues pre-signed upload URLs
  (`GET /upload-url/:filename`).
* `src/unnamed/part_000` — the direct-upload variant: pre-signed upload and
  download URLs (`GET /upload-url/:filename`, `GET /download-url/:fileKey`)
  plus an in-memory posts register (`POST /posts`, `GET /posts`).

The MinIO client is an external collaborator.  We model the bucket as an
association list from storage keys to stored objects, and each client call
(`getObject`, `statObject`, `putObject`, `removeObject`, `bucketExists`,
`makeBucket`, `presignedPutObject`, `presignedGetObject`) either as a function
on that list or, where a handler's behaviour on arbitrary store errors
matters, as an explicit `Except`-valued call result passed to the handler.
Store errors carry the S3 error code the handlers branch on
(`error.code === 'NoSuchKey'`).
-/

set_option autoImplicit false

/-- An error raised by a MinIO client call; the handlers only inspect its
`code` field (`error.code === 'NoSuchKey'`). -/
structure S3Error where
  code : String
deriving DecidableEq, Repr

/-- One object in the bucket: its bytes plus the metadata the handlers read,
namely `metaData['content-type']` and `metaData['x-amz-meta-original-name']`
(absent fields are `none`). -/
structure StoredObject where
  content : List Nat
  contentType : Option String
  originalName : Option String
deriving DecidableEq, Repr

/-- The bucket contents: an association list from storage key to object.
An earlier entry shadows a later one with the same key. -/
abbrev Store := List (String × StoredObject)

/-- `BUCKET_NAME` from both variants (`'my-bucket'`). -/
def BUCKET_NAME : String := "my-bucket"

/-- Find the object stored under `key`, if any. -/
def lookupObj : Store → String → Option StoredObject
  | [], _ => none
  | (k, o) :: rest, key => if k = key then some o else lookupObj rest key

/-- Model of `minioClient.putObject(BUCKET_NAME, key, stream)` exactly as the
upload handler invokes it: three arguments, hence NO metadata attached — the
stored object records neither a content type nor an original name. -/
def putObject (store : Store) (key : String) (content : List Nat) : Store :=
  (key, { content := content, contentType := none, originalName := none }) ::
    store.filter (fun p => p.1 ≠ key)

/-- Model of `minioClient.removeObject(BUCKET_NAME, key)`. -/
def removeObject (store : Store) (key : String) : Store :=
  store.filter (fun p => p.1 ≠ key)

/-- The fields of a `statObject` result that the handlers read:
`stat.size`, `stat.metaData['content-type']`,
`stat.metaData['x-amz-meta-original-name']`. -/
structure Stat where
  size : Nat
  contentType : Option String
  originalName : Option String
deriving DecidableEq, Repr

/-- Model of `minioClient.statObject(BUCKET_NAME, key)` against a healthy
store: a missing key raises the store's not-found error code. -/
def statObject (store : Store) (key : String) : Except S3Error Stat :=
  match lookupObj store key with
  | none => .error ⟨"NoSuchKey"⟩
  | some o => .ok ⟨o.content.length, o.contentType, o.originalName⟩

/-- Model of `minioClient.getObject(BUCKET_NAME, key)` against a healthy
store: a missing key raises the store's not-found error code. -/
def getObject (store : Store) (key : String) : Except S3Error (List Nat) :=
  match lookupObj store key with
  | none => .error ⟨"NoSuchKey"⟩
  | some o => .ok o.content

/-! ## Object naming policy (src/index.js line 68) -/

/-- `const uniqueFilename = ` followed by the template
`Date.now()`, `-`, `filename`: the millisecond timestamp, a dash, and the
client-supplied filename.  `now` stands for the value of `Date.now()`. -/
def uniqueFilename (now : Nat) (filename : String) : String :=
  toString now ++ "-" ++ filename

/-! ## Metadata register (src/unnamed/part_000 lines 21–22, 53–71) -/

/-- A post record held in the in-memory `posts` array. -/
structure Post where
  id : Nat
  title : String
  description : String
  fileKey : String
deriving DecidableEq, Repr

/-- The body of a `POST /posts` request. -/
structure PostReq where
  title : String
  description : String
  fileKey : String
deriving DecidableEq, Repr

/-- The `POST /posts` handler: builds a post with `id := posts.length + 1`,
pushes it, and returns it. -/
def postsHandler (posts : List Post) (r : PostReq) : List Post × Post :=
  let post : Post :=
    { id := posts.length + 1, title := r.title, description := r.description,
      fileKey := r.fileKey }
  (posts ++ [post], post)

/-- The `GET /posts` handler: returns the `posts` array as-is. -/
def postsList (posts : List Post) : List Post := posts

/-- Run a sequence of `POST /posts` requests against a register state. -/
def runPosts : List PostReq → List Post → List Post
  | [], posts => posts
  | r :: rs, posts => runPosts rs (postsHandler posts r).1

/-- The records a request sequence appends when the register already holds
`n` posts. -/
def buildPosts (n : Nat) : List PostReq → List Post
  | [] => []
  | r :: rs =>
      { id := n + 1, title := r.title, description := r.description,
        fileKey := r.fileKey } :: buildPosts (n + 1) rs

theorem runPosts_eq (reqs : List PostReq) (posts : List Post) :
    runPosts reqs posts = posts ++ buildPosts posts.length reqs := by
  induction reqs generalizing posts with
  | nil => simp [runPosts, buildPosts]
  | cons r rs ih =>
      simp only [runPosts, buildPosts, postsHandler]
      rw [ih]
      simp

theorem buildPosts_map_id (reqs : List PostReq) (n : Nat) :
    (buildPosts n reqs).map Post.id = List.range' (n + 1) reqs.length := by
  induction reqs generalizing n with
  | nil => simp [buildPosts]
  | cons r rs ih =>
      show (n + 1) :: (buildPosts (n + 1) rs).map Post.id =
        (n + 1) :: List.range' (n + 1 + 1) rs.length
      rw [ih]

theorem buildPosts_map_req (reqs : List PostReq) (n : Nat) :
    (buildPosts n reqs).map (fun p => PostReq.mk p.title p.description p.fileKey)
      = reqs := by
  induction reqs generalizing n with
  | nil => simp [buildPosts]
  | cons r rs ih => simp [buildPosts, ih]

/-! ## Store — the `POST /upload` handler (src/index.js lines 56–85) -/

/-- The one file field of the multipart request: `data.filename`,
`data.mimetype` and the byte stream `data.file`. -/
structure FilePart where
  filename : String
  mimetype : String
  file : List Nat
deriving DecidableEq, Repr

/-- The success payload of `POST /upload`. -/
structure UploadResponse where
  success : Bool
  message : String
  filename : String
  originalName : String
  mimetype : String
deriving DecidableEq, Repr

/-- The body of the upload handler once a file part is present: derive the
key with `uniqueFilename`, call `putObject(BUCKET_NAME, uniqueFilename,
data.file)` (no metadata argument), and answer with the key, original name
and mimetype. -/
def uploadCore (now : Nat) (d : FilePart) (store : Store) :
    Store × UploadResponse :=
  let key := uniqueFilename now d.filename
  (putObject store key d.file,
   { success := true, message := "File uploaded successfully", filename := key,
     originalName := d.filename, mimetype := d.mimetype })

/-- The full `POST /upload` handler: a missing file part is a 400 error. -/
def uploadHandler (now : Nat) (data : Option FilePart) (store : Store) :
    Store × Except String UploadResponse :=
  match data with
  | none => (store, .error "No file uploaded")
  | some d =>
      let r := uploadCore now d store
      (r.1, .ok r.2)

/-! ## Retrieve — the `GET /file/:filename` handler (src/index.js 88–116) -/

/-- The outcome of `GET /file/:filename`: a 200 with headers and body, a 404
`{ error: 'File not found' }`, or a 500 `{ error: 'Failed to retrieve
file' }`. -/
inductive GetFileResult where
  | ok (contentType : String) (contentLength : Nat)
      (contentDisposition : Option String) (body : List Nat)
  | notFound (error : String)
  | serverError (error : String)
deriving DecidableEq, Repr

/-- The `Content-Disposition` header of a retrieval outcome, if any. -/
def dispositionOf : GetFileResult → Option String
  | .ok _ _ cd _ => cd
  | _ => none

/-- The body of the retrieve handler as a function of its two awaited client
calls: `getObject`, then `statObject`; the catch block maps a `NoSuchKey`
error to 404 and anything else to 500; on success the content type falls
back to `application/octet-stream` and `Content-Disposition` is set exactly
when `metaData['x-amz-meta-original-name']` is present. -/
def fileGetCore (getRes : Except S3Error (List Nat))
    (statRes : Except S3Error Stat) : GetFileResult :=
  match getRes with
  | .error e =>
      if e.code = "NoSuchKey" then .notFound "File not found"
      else .serverError "Failed to retrieve file"
  | .ok dataStream =>
      match statRes with
      | .error e =>
          if e.code = "NoSuchKey" then .notFound "File not found"
          else .serverError "Failed to retrieve file"
      | .ok stat =>
          .ok (stat.contentType.getD "application/octet-stream") stat.size
            (stat.originalName.map
              (fun n => "attachment; filename=\"" ++ n ++ "\""))
            dataStream

/-- The `GET /file/:filename` handler against a healthy store. -/
def fileGet (store : Store) (filename : String) : GetFileResult :=
  fileGetCore (getObject store filename) (statObject store filename)

/-! ## Delete — the `DELETE /file/:filename` handler (src/index.js 158–180) -/

/-- The response of `DELETE /file/:filename`: success (the JS message
interpolates the deleted filename, recorded here as the constructor
argument), 404 `{ error: 'File not found' }`, or 500
`{ error: 'Failed to delete file' }`. -/
inductive DeleteResult where
  | ok (filename : String)
  | notFound (error : String)
  | serverError (error : String)
deriving DecidableEq, Repr

/-- What a delete request leaves behind: the store state, whether
`removeObject` was ever called, and the HTTP response. -/
structure DeleteOutcome where
  store : Store
  deleteIssued : Bool
  response : DeleteResult
deriving DecidableEq, Repr

/-- The body of the delete handler as a function of the awaited
`statObject` result: only when the stat succeeds is `removeObject` issued;
the catch block maps `NoSuchKey` to 404 and anything else to 500. -/
def deleteCore (statRes : Except S3Error Stat) (store : Store)
    (filename : String) : DeleteOutcome :=
  match statRes with
  | .error e =>
      { store := store, deleteIssued := false,
        response :=
          if e.code = "NoSuchKey" then .notFound "File not found"
          else .serverError "Failed to delete file" }
  | .ok _ =>
      { store := removeObject store filename, deleteIssued := true,
        response := .ok filename }

/-- The `DELETE /file/:filename` handler against a healthy store. -/
def deleteHandler (store : Store) (filename : String) : DeleteOutcome :=
  deleteCore (statObject store filename) store filename

/-- Claim C7: starting from an empty register, a sequence of `POST /posts`
requests assigns identifiers exactly `1, 2, 3, …` in call order (no
duplicates or skips), and `GET /posts` returns all records in creation
order (the i-th record carries the i-th request's title, description and
fileKey). -/
theorem posts_ids_sequential_and_ordered (reqs : List PostReq) :
    (postsList (runPosts reqs [])).map Post.id = List.range' 1 reqs.length ∧
    (postsList (runPosts reqs [])).map
      (fun p => PostReq.mk p.title p.description p.fileKey) = reqs := by
  have h := runPosts_eq reqs []
  simp only [List.nil_append, List.length_nil] at h
  constructor
  · rw [postsList, h, buildPosts_map_id]
  · rw [postsList, h, buildPosts_map_req]

/-- Claim C8: the naming policy concatenates the `Date.now()` timestamp and
the original filename separated by the fixed dash delimiter, so every derived
key ends in `"-" ++ filename`; in particular the key for `"a.txt"` ends in
`"-a.txt"`. -/
theorem storage_key_timestamp_dash_filename (now : Nat) (f : String) :
    uniqueFilename now f = toString now ++ "-" ++ f ∧
    ("-" ++ f).data <:+ (uniqueFilename now f).data ∧
    "-a.txt".data <:+ (uniqueFilename now "a.txt").data := by
  refine ⟨rfl, ?_, ?_⟩
  · show ("-" ++ f).data <:+ ((toString now ++ "-") ++ f).data
    simp only [String.data_append, List.append_assoc]
    exact List.suffix_append _ _
  · show "-a.txt".data <:+ ((toString now ++ "-") ++ "a.txt").data
    simp only [String.data_append, List.append_assoc]
    exact List.suffix_append _ _

/-- Claim C1 (code-bug evidence): the code evaluated at the spec's own
scenario — upload `"a.txt"` with bytes `"hi"` (`[104, 105]`) and declared
type `text/plain` at `Date.now() = 5` into an empty bucket.  The bytes come
back identical, but because `putObject` is called with no metadata the
stored object records no original name and retrieval serves
`application/octet-stream`, not the declared `text/plain`. -/
theorem upload_then_retrieve_drops_declared_content_type :
    (uploadCore 5 ⟨"a.txt", "text/plain", [104, 105]⟩ []).2.mimetype =
      "text/plain" ∧
    fileGet (uploadCore 5 ⟨"a.txt", "text/plain", [104, 105]⟩ []).1
        (uploadCore 5 ⟨"a.txt", "text/plain", [104, 105]⟩ []).2.filename =
      .ok "application/octet-stream" 2 none [104, 105] ∧
    (lookupObj (uploadCore 5 ⟨"a.txt", "text/plain", [104, 105]⟩ []).1
        (uploadCore 5 ⟨"a.txt", "text/plain", [104, 105]⟩ []).2.filename).map
      StoredObject.originalName = some none ∧
    "application/octet-stream" ≠ "text/plain" := by
  refine ⟨rfl, by decide, by decide, by decide⟩

/-- Claim C5: deleting a key that is not in the store answers the 404
`File not found` payload, never issues the store's `removeObject` call, and
leaves the store unchanged (the handler stats first and only deletes after
a successful stat). -/
theorem delete_missing_key_not_found_no_delete (store : Store)
    (filename : String) (h : lookupObj store filename = none) :
    (deleteHandler store filename).response = .notFound "File not found" ∧
    (deleteHandler store filename).deleteIssued = false ∧
    (deleteHandler store filename).store = store := by
  simp [deleteHandler, deleteCore, statObject, h]

/-- Witness for C5 at the spec's own scenario `DELETE /file/does-not-exist`
against an empty bucket. -/
theorem delete_missing_key_not_found_no_delete_witness :
    (deleteHandler [] "does-not-exist").response = .notFound "File not found" ∧
    (deleteHandler [] "does-not-exist").deleteIssued = false ∧
    (deleteHandler [] "does-not-exist").store = [] :=
  delete_missing_key_not_found_no_delete [] "does-not-exist" rfl

/-- Claim C6: retrieval of a key absent from the store yields the 404
not-found outcome; any store error whose code is not `NoSuchKey` yields the
distinct generic 500 outcome; and a successful retrieval of an object with
no recorded content type serves `application/octet-stream`. -/
theorem retrieve_not_found_distinguished_and_fallback (store : Store)
    (key : String) :
    (lookupObj store key = none →
      fileGet store key = .notFound "File not found") ∧
    (∀ (e : S3Error) (statRes : Except S3Error Stat), e.code ≠ "NoSuchKey" →
      fileGetCore (.error e) statRes =
        .serverError "Failed to retrieve file") ∧
    (∀ obj : StoredObject, lookupObj store key = some obj →
      obj.contentType = none →
      fileGet store key =
        .ok "application/octet-stream" obj.content.length
          (obj.originalName.map
            (fun n => "attachment; filename=\"" ++ n ++ "\""))
          obj.content) := by
  refine ⟨?_, ?_, ?_⟩
  · intro h
    simp [fileGet, fileGetCore, getObject, statObject, h]
  · intro e statRes he
    simp [fileGetCore, he]
  · intro obj h hct
    simp [fileGet, fileGetCore, getObject, statObject, h, hct]

/-- Witness for C6: a missing key on an empty store, an `AccessDenied`
store error, and an object stored with no content type. -/
theorem retrieve_not_found_distinguished_and_fallback_witness :
    fileGet [] "ghost.txt" = .notFound "File not found" ∧
    fileGetCore (.error ⟨"AccessDenied"⟩) (.error ⟨"AccessDenied"⟩) =
      .serverError "Failed to retrieve file" ∧
    fileGet [("k.bin", ⟨[7], none, none⟩)] "k.bin" =
      .ok "application/octet-stream" 1 none [7] := by
  refine ⟨(retrieve_not_found_distinguished_and_fallback [] "ghost.txt").1 rfl,
    (retrieve_not_found_distinguished_and_fallback [] "ghost.txt").2.1
      ⟨"AccessDenied"⟩ (.error ⟨"AccessDenied"⟩) (by decide), ?_⟩
  have h := (retrieve_not_found_distinguished_and_fallback
      [("k.bin", ⟨[7], none, none⟩)] "k.bin").2.2 ⟨[7], none, none⟩
      (by decide) rfl
  simpa using h

/-- Claim C10: the retrieve handler sets `Content-Disposition` exactly when
the stat metadata carries `x-amz-meta-original-name`; and since the upload
handler's `putObject` call attaches no metadata, retrieving an object just
stored through `POST /upload` never carries a `Content-Disposition`
header. -/
theorem content_disposition_iff_original_name (body : List Nat) (stat : Stat)
    (now : Nat) (d : FilePart) (store : Store) :
    (dispositionOf (fileGetCore (.ok body) (.ok stat))).isSome =
      stat.originalName.isSome ∧
    dispositionOf
      (fileGet (uploadCore now d store).1
        (uploadCore now d store).2.filename) = none := by
  constructor
  · cases h : stat.originalName <;> simp [fileGetCore, dispositionOf, h]
  · simp [uploadCore, fileGet, getObject, statObject, putObject, lookupObj,
      dispositionOf, fileGetCore]


/-! ## List — the `GET /files` handler (src/index.js lines 119–155) -/

/-- One object as yielded by the `listObjects` stream: the fields the
handler reads are `obj.name`, `obj.size` and `obj.lastModified`. -/
structure ListedObj where
  name : String
  size : Nat
  lastModified : Nat
deriving DecidableEq, Repr

/-- One entry pushed onto `objectsList`: the full shape when the per-object
`statObject` succeeded (`originalName` already holds the
`metaData['x-amz-meta-original-name'] || obj.name` fallback), or the basic
shape — key, size, last-modified only — when it failed. -/
inductive FileSummary where
  | full (name : String) (originalName : String) (size : Nat)
      (lastModified : Nat) (contentType : Option String)
  | basic (name : String) (size : Nat) (lastModified : Nat)
deriving DecidableEq, Repr

/-- The per-object body of the listing loop: try `statObject`; on success
push the full entry, on failure push the basic one. -/
def summarize (statFn : String → Except S3Error Stat) (obj : ListedObj) :
    FileSummary :=
  match statFn obj.name with
  | .ok stat =>
      .full obj.name (stat.originalName.getD obj.name) obj.size
        obj.lastModified stat.contentType
  | .error _ => .basic obj.name obj.size obj.lastModified

/-- The success payload of `GET /files`. -/
structure FilesResponse where
  bucket : String
  files : List FileSummary
  count : Nat
deriving DecidableEq, Repr

/-- The `GET /files` handler as a function of the `listObjects` stream
result and the per-object `statObject` behaviour: only a failure of the
listing stream itself reaches the outer catch (500); per-object stat
failures are absorbed by `summarize`. -/
def filesHandler (listRes : Except S3Error (List ListedObj))
    (statFn : String → Except S3Error Stat) : Except String FilesResponse :=
  match listRes with
  | .error _ => .error "Failed to list files"
  | .ok objs =>
      let objectsList := objs.map (summarize statFn)
      .ok { bucket := BUCKET_NAME, files := objectsList,
            count := objectsList.length }

/-- Claim C2: when exactly one enumerated object's stat call fails, the
listing still succeeds, the failed object degrades to its key, size and
last-modified timestamp, every other object keeps the full shape, and the
count equals the total number of objects enumerated. -/
theorem list_degrades_single_stat_failure
    (statFn : String → Except S3Error Stat) (pre post : List ListedObj)
    (o : ListedObj) (hfail : ∃ e, statFn o.name = .error e)
    (hok : ∀ x ∈ pre ++ post, ∃ s, statFn x.name = .ok s) :
    filesHandler (.ok (pre ++ o :: post)) statFn =
      .ok { bucket := BUCKET_NAME,
            files := pre.map (summarize statFn) ++
              FileSummary.basic o.name o.size o.lastModified ::
                post.map (summarize statFn),
            count := pre.length + 1 + post.length } ∧
    (∀ x ∈ pre ++ post, ∃ orig ct,
      summarize statFn x = .full x.name orig x.size x.lastModified ct) := by
  obtain ⟨e, he⟩ := hfail
  constructor
  · have hsum : summarize statFn o = .basic o.name o.size o.lastModified := by
      simp [summarize, he]
    simp only [filesHandler, List.map_append, List.map_cons, hsum,
      List.length_append, List.length_map, List.length_cons]
    refine congrArg Except.ok ?_
    refine congrArg (FilesResponse.mk BUCKET_NAME _) ?_
    omega
  · intro x hx
    obtain ⟨s, hs⟩ := hok x hx
    exact ⟨s.originalName.getD x.name, s.contentType, by simp [summarize, hs]⟩

/-- A concrete stat behaviour failing exactly on `b.txt`. -/
def statFnW : String → Except S3Error Stat := fun n =>
  if n = "b.txt" then .error ⟨"ConnectionClosed"⟩
  else .ok ⟨3, some "text/plain", none⟩

/-- Witness for C2: three listed objects of which exactly the middle one's
stat fails. -/
theorem list_degrades_single_stat_failure_witness :
    filesHandler (.ok [⟨"a.txt", 3, 100⟩, ⟨"b.txt", 5, 150⟩,
      ⟨"c.txt", 4, 200⟩]) statFnW =
      .ok { bucket := BUCKET_NAME,
            files := [.full "a.txt" "a.txt" 3 100 (some "text/plain"),
                      .basic "b.txt" 5 150,
                      .full "c.txt" "c.txt" 4 200 (some "text/plain")],
            count := 3 } := by
  have h := (list_degrades_single_stat_failure statFnW [⟨"a.txt", 3, 100⟩]
      [⟨"c.txt", 4, 200⟩] ⟨"b.txt", 5, 150⟩
      ⟨⟨"ConnectionClosed"⟩, by simp [statFnW]⟩
      (by
        intro x hx
        simp only [List.mem_append, List.mem_singleton] at hx
        rcases hx with h1 | h1 <;> subst h1 <;>
          exact ⟨⟨3, some "text/plain", none⟩, by simp [statFnW]⟩)).1
  simpa [statFnW, summarize] using h

/-- Claim C9: when an object's stat succeeds but records no
`x-amz-meta-original-name`, the listing reports the storage key itself as
the `originalName` field rather than omitting it. -/
theorem list_original_name_falls_back_to_key
    (statFn : String → Except S3Error Stat) (obj : ListedObj) (s : Stat)
    (h : statFn obj.name = .ok s) (horig : s.originalName = none) :
    summarize statFn obj =
      .full obj.name obj.name obj.size obj.lastModified s.contentType ∧
    filesHandler (.ok [obj]) statFn =
      .ok { bucket := BUCKET_NAME,
            files := [.full obj.name obj.name obj.size obj.lastModified
              s.contentType],
            count := 1 } := by
  have hsum : summarize statFn obj =
      .full obj.name obj.name obj.size obj.lastModified s.contentType := by
    simp [summarize, h, horig]
  exact ⟨hsum, by simp [filesHandler, hsum]⟩

/-- Witness for C9: a stat result with no original-name metadata. -/
theorem list_original_name_falls_back_to_key_witness :
    summarize (fun _ => .ok ⟨9, some "image/png", none⟩) ⟨"pic.png", 9, 400⟩ =
      .full "pic.png" "pic.png" 9 400 (some "image/png") ∧
    filesHandler (.ok [⟨"pic.png", 9, 400⟩])
      (fun _ => .ok ⟨9, some "image/png", none⟩) =
      .ok { bucket := BUCKET_NAME,
            files := [.full "pic.png" "pic.png" 9 400 (some "image/png")],
            count := 1 } :=
  list_original_name_falls_back_to_key
    (fun _ => .ok ⟨9, some "image/png", none⟩) ⟨"pic.png", 9, 400⟩
    ⟨9, some "image/png", none⟩ rfl rfl

/-! ## Pre-signed URL issuance (src/index.js 183–200, src/unnamed/part_000 34–50 and 74–83) -/

/-- A JSON value as far as these handlers produce one: a string or a
number. -/
inductive JValue where
  | str (s : String)
  | num (n : Nat)
deriving DecidableEq, Repr

/-- A JSON object payload, as an ordered list of fields. -/
abbrev JsonObj := List (String × JValue)

/-- `const expiry = 24 * 60 * 60` in `src/index.js` (24 hours). -/
def UPLOAD_URL_EXPIRY : Nat := 24 * 60 * 60

/-- `const expiry = 60 * 5` in `src/unnamed/part_000` (5 minutes). -/
def UPLOAD_URL_EXPIRY_ALT : Nat := 60 * 5

/-- The inline `60 * 5` expiry passed to `presignedGetObject` in
`src/unnamed/part_000` line 77. -/
def DOWNLOAD_URL_EXPIRY : Nat := 60 * 5

/-- `GET /upload-url/:filename` in `src/index.js`: sign a put URL for the
raw filename with the 24-hour expiry and answer with
`uploadUrl`/`filename`/`expiresIn`; a signing error is a 500.
`presignPut` models `minioClient.presignedPutObject(BUCKET_NAME, ·, ·)`. -/
def uploadUrlHandler (presignPut : String → Nat → Except S3Error String)
    (filename : String) : Except String JsonObj :=
  match presignPut filename UPLOAD_URL_EXPIRY with
  | .ok url =>
      .ok [("uploadUrl", .str url), ("filename", .str filename),
           ("expiresIn", .num UPLOAD_URL_EXPIRY)]
  | .error _ => .error "Failed to generate upload URL"

/-- `GET /upload-url/:filename` in `src/unnamed/part_000`: same shape with
the 5-minute expiry and a `fileKey` field. -/
def uploadUrlHandlerAlt (presignPut : String → Nat → Except S3Error String)
    (filename : String) : Except String JsonObj :=
  match presignPut filename UPLOAD_URL_EXPIRY_ALT with
  | .ok url =>
      .ok [("uploadUrl", .str url), ("fileKey", .str filename),
           ("expiresIn", .num UPLOAD_URL_EXPIRY_ALT)]
  | .error _ => .error "Failed to create presigned URL"

/-- `GET /download-url/:fileKey` in `src/unnamed/part_000`: sign a get URL
with the inline 5-minute expiry and answer with `{ url }` — and nothing
else.  `presignGet` models
`minioClient.presignedGetObject(BUCKET_NAME, ·, ·)`. -/
def downloadUrlHandler (presignGet : String → Nat → Except S3Error String)
    (fileKey : String) : Except String JsonObj :=
  match presignGet fileKey DOWNLOAD_URL_EXPIRY with
  | .ok url => .ok [("url", .str url)]
  | .error _ => .error "Failed to get download URL"

/-- Counterexample to claim C3: the download-URL response for a perfectly
valid key is the single-field object `{ url }`; it carries no numeric field
at all, hence no expiry, contradicting the claim that each of the two
operations returns the URL together with the configured expiry. -/
theorem download_url_response_has_no_expiry_field :
    downloadUrlHandler (fun k _ => .ok ("https://minio.local/" ++ k))
      "report.pdf" =
      .ok [("url", JValue.str "https://minio.local/report.pdf")] ∧
    ¬ ∃ f n, (f, JValue.num n) ∈
      [("url", JValue.str "https://minio.local/report.pdf")] := by
  constructor
  · rfl
  · rintro ⟨f, n, h⟩
    simp at h

/-- Claim C3 as amended: for any key the signing capability accepts, both
upload-URL handlers answer with the URL and an `expiresIn` equal to their
configured expiry constant (24 h in the streaming-proxy variant, 5 min in
the direct-upload variant), while the download-URL handler signs with the
configured 5-minute expiry but answers with the URL only. -/
theorem presigned_url_handlers_expiry
    (presignPut presignGet : String → Nat → Except S3Error String)
    (key u₁ u₂ u₃ : String)
    (h₁ : presignPut key UPLOAD_URL_EXPIRY = .ok u₁)
    (h₂ : presignPut key UPLOAD_URL_EXPIRY_ALT = .ok u₂)
    (h₃ : presignGet key DOWNLOAD_URL_EXPIRY = .ok u₃) :
    uploadUrlHandler presignPut key =
      .ok [("uploadUrl", .str u₁), ("filename", .str key),
           ("expiresIn", .num UPLOAD_URL_EXPIRY)] ∧
    uploadUrlHandlerAlt presignPut key =
      .ok [("uploadUrl", .str u₂), ("fileKey", .str key),
           ("expiresIn", .num UPLOAD_URL_EXPIRY_ALT)] ∧
    downloadUrlHandler presignGet key = .ok [("url", .str u₃)] := by
  refine ⟨?_, ?_, ?_⟩
  · simp [uploadUrlHandler, h₁]
  · simp [uploadUrlHandlerAlt, h₂]
  · simp [downloadUrlHandler, h₃]

/-- Witness for the amended C3 with a concrete signing capability. -/
theorem presigned_url_handlers_expiry_witness :
    uploadUrlHandler (fun k _ => .ok ("https://minio.local/put/" ++ k))
      "a.txt" =
      .ok [("uploadUrl", JValue.str "https://minio.local/put/a.txt"),
           ("filename", JValue.str "a.txt"),
           ("expiresIn", JValue.num UPLOAD_URL_EXPIRY)] ∧
    uploadUrlHandlerAlt (fun k _ => .ok ("https://minio.local/put/" ++ k))
      "a.txt" =
      .ok [("uploadUrl", JValue.str "https://minio.local/put/a.txt"),
           ("fileKey", JValue.str "a.txt"),
           ("expiresIn", JValue.num UPLOAD_URL_EXPIRY_ALT)] ∧
    downloadUrlHandler (fun k _ => .ok ("https://minio.local/get/" ++ k))
      "a.txt" =
      .ok [("url", JValue.str "https://minio.local/get/a.txt")] :=
  presigned_url_handlers_expiry
    (fun k _ => .ok ("https://minio.local/put/" ++ k))
    (fun k _ => .ok ("https://minio.local/get/" ++ k))
    "a.txt" "https://minio.local/put/a.txt" "https://minio.local/put/a.txt"
    "https://minio.local/get/a.txt" rfl rfl rfl

/-! ## Bucket provisioner (src/index.js 18–30 and 203–221,
src/unnamed/part_000 25–31 and 85–91) -/

/-- `ensureBucket` in `src/index.js`: the whole body sits in a
`try`/`catch` whose catch clause only logs, so every error from
`bucketExists` or `makeBucket` is swallowed and the function returns
normally. -/
def ensureBucket (existsRes : Except S3Error Bool)
    (makeRes : Except S3Error Unit) : Except S3Error Unit :=
  match existsRes with
  | .error _ => .ok ()
  | .ok true => .ok ()
  | .ok false =>
      match makeRes with
      | .error _ => .ok ()
      | .ok () => .ok ()

/-- `ensureBucket` in `src/unnamed/part_000`: no `try`/`catch`, so an error
from `bucketExists` or `makeBucket` propagates to the caller. -/
def ensureBucketAlt (existsRes : Except S3Error Bool)
    (makeRes : Except S3Error Unit) : Except S3Error Unit := do
  let ex ← existsRes
  if !ex then makeRes else pure ()

/-- Whether the process reaches `fastify.listen` or dies beforehand. -/
inductive StartResult where
  | listening
  | failed (e : S3Error)
deriving DecidableEq, Repr

/-- The `start` function of `src/index.js`: `await ensureBucket()` then
listen; its `try`/`catch` exits on error, but `ensureBucket` never
throws. -/
def startIndex (existsRes : Except S3Error Bool)
    (makeRes : Except S3Error Unit) : StartResult :=
  match ensureBucket existsRes makeRes with
  | .ok _ => .listening
  | .error e => .failed e

/-- The `start` function of `src/unnamed/part_000`: `await ensureBucket()`
then listen, with no handler, so a provisioning error prevents the listen
call. -/
def startAlt (existsRes : Except S3Error Bool)
    (makeRes : Except S3Error Unit) : StartResult :=
  match ensureBucketAlt existsRes makeRes with
  | .ok _ => .listening
  | .error e => .failed e

/-- Counterexample to claim C4: with the bucket-existence check failing
(e.g. connection refused), the streaming-proxy variant swallows the error
and still starts listening — it does NOT treat the failure as fatal — while
the direct-upload variant propagates the error and never listens — it does
NOT log-and-ignore.  The claim has the two variants exactly swapped. -/
theorem bucket_provisioning_policy_swapped :
    startIndex (.error ⟨"ECONNREFUSED"⟩) (.ok ()) = .listening ∧
    ensureBucket (.error ⟨"ECONNREFUSED"⟩) (.ok ()) = .ok () ∧
    startAlt (.error ⟨"ECONNREFUSED"⟩) (.ok ()) =
      .failed ⟨"ECONNREFUSED"⟩ ∧
    ensureBucketAlt (.error ⟨"ECONNREFUSED"⟩) (.ok ()) =
      .error ⟨"ECONNREFUSED"⟩ := by
  refine ⟨rfl, rfl, rfl, rfl⟩

/-- Claim C4 as amended: any error from the bucket existence check or from
bucket creation is caught and only logged in the streaming-proxy variant,
whose startup proceeds to listen regardless, whereas in the direct-upload
variant the same error propagates out of `ensureBucket` and startup never
reaches the listen call. -/
theorem bucket_provisioning_failure_policy (e : S3Error)
    (makeRes : Except S3Error Unit) :
    ensureBucket (.error e) makeRes = .ok () ∧
    startIndex (.error e) makeRes = .listening ∧
    ensureBucket (.ok false) (.error e) = .ok () ∧
    startIndex (.ok false) (.error e) = .listening ∧
    ensureBucketAlt (.error e) makeRes = .error e ∧
    startAlt (.error e) makeRes = .failed e ∧
    ensureBucketAlt (.ok false) (.error e) = .error e ∧
    startAlt (.ok false) (.error e) = .failed e := by
  exact ⟨rfl, rfl, rfl, rfl, rfl, rfl, rfl, rfl⟩
